import Mathlib

/-!
Shallow embedding of the `code-genie` library (`src/code_genie/genie.py`).

The library wraps a remote code-generation service: a constructor builds a
request (the Task Descriptor), sends it through a client, receives source
text plus a function name, defines the text in a fresh namespace via `exec`,
and stores the extracted binding as the wrapper's executor.  Invocation
forwards the arguments to the executor and returns its result unchanged.

Python exceptions are embedded as the `Except PyError` monad.  The dynamic
parts of Python that the source delegates to the ambient runtime — the
meaning of `exec` on a source string and the call protocol on a function
object — are parameters of the development (`ExecSem`, an `apply` function
on an abstract type `F` of function implementations).  `code_genie/client.py`
is imported by `genie.py` but its source is not part of the repository
snapshot; the request models it declares are modelled from the spec and
marked as such in their doc comments.
-/

/-- Embedded error taxonomy.  `InvalidArgument`, `GenerationFailed` and
`ActivationError` are the spec's categories for, respectively, a malformed
Task Descriptor, a failed service call, and the name-lookup fault raised at
activation when the generated code leaves `fn_name` unbound (`mem[fn_name]`).
`TypeError` is Python's fault for calling a non-callable object; `Other`
covers any other ambient exception. -/
inductive PyError where
  | InvalidArgument (msg : String)
  | GenerationFailed (msg : String)
  | ActivationError (name : String)
  | TypeError (msg : String)
  | Other (msg : String)
deriving DecidableEq, Repr

/-- A Python value as far as the library observes it: either a callable
carrying an implementation drawn from an abstract type `F`, or a
non-callable object identified by a tag. -/
inductive Value (F : Type) where
  | callable (f : F)
  | obj (tag : String)
deriving DecidableEq, Repr

/-- Positional and keyword arguments of a Python call, forwarded verbatim by
the wrapper (`*args, **kwargs`). -/
structure Args (F : Type) where
  pos : List (Value F)
  kw : List (String × Value F)
deriving DecidableEq, Repr

/-- The ambient Python call protocol on function implementations: what a
call of the implementation returns (or raises) on given arguments. -/
def ApplySem (F : Type) : Type :=
  F → Args F → Except PyError (Value F)

/-- Calling a Python value: a callable runs its implementation, a
non-callable raises `TypeError`. -/
def pycall {F : Type} (apply : ApplySem F) :
    Value F → Args F → Except PyError (Value F)
  | .callable f, a => apply f a
  | .obj tag, _ => .error (.TypeError tag)

/-- A module-level namespace (the `mem` dict of `_extract_executable`),
mapping names to values. -/
def Namespace (F : Type) : Type :=
  List (String × Value F)

/-- Name lookup in a namespace (`mem[fn_name]`, absent key ↦ `none`). -/
def lookupNS {F : Type} (ns : Namespace F) (name : String) :
    Option (Value F) :=
  ns.lookup name

/-- The semantics of Python `exec`: given source text and the globals dict
it runs in, the resulting dict after the text's definitions execute — or the
exception the text raises while being defined. -/
def ExecSem (F : Type) : Type :=
  String → Namespace F → Except PyError (Namespace F)

/-- The dict `_extract_executable` creates for each activation:
`mem = \x7b\x7d`, a brand-new empty namespace. -/
def freshNamespace (F : Type) : Namespace F := []

/-- `instructions: Union[str, List[str]]` — the constructor accepts a single
string or a list of strings. -/
def Instructions : Type :=
  Sum String (List String)

/-- The normalization in `GenieBase.__init__`:
`if isinstance(instructions, str): instructions = [instructions]`. -/
def normalizeInstructions : Instructions → List String
  | .inl s => [s]
  | .inr l => l

/-- The generic request payload sent to the generation service
(`GetExecutableRequest` in `code_genie/client.py`): instructions, the inputs
mapping and the optional allow-list of imports. -/
structure GetExecutableRequest where
  instructions : List String
  inputs : List (String × String)
  allowed_imports : Option (List String)
deriving DecidableEq, Repr

/-- The tabular request payload sent to the generation service
(`GetPandasExecutableRequest` in `code_genie/client.py`): instructions, the
optional inputs mapping, the optional column hints and the optional
allow-list of imports. -/
structure GetPandasExecutableRequest where
  instructions : List String
  inputs : List (String × String)
  columns : Option (List String)
  allowed_imports : Option (List String)
deriving DecidableEq, Repr

/-- Whether the instructions of a Task Descriptor are empty: no instruction
text at all, i.e. every element of the (already normalized) sequence is the
empty string — which covers both an empty sequence and the normalization
`[""]` of an empty single string. -/
def instructionsEmpty (instructions : List String) : Bool :=
  instructions.all (fun s => s = "")

/-- Modelled from the spec: `code_genie/client.py` (imported by `genie.py`
but absent from the repository snapshot) declares the request model
`GetExecutableRequest`; per spec §4.1, Task Descriptor construction "Fails
with `InvalidArgument` if instructions is empty". -/
def GetExecutableRequest.build (instructions : List String)
    (inputs : List (String × String)) (allowed_imports : Option (List String)) :
    Except PyError GetExecutableRequest :=
  if instructionsEmpty instructions then
    .error (.InvalidArgument "instructions is empty")
  else
    .ok ⟨instructions, inputs, allowed_imports⟩

/-- The default inputs mapping of the tabular specialization: a single entry
describing a tabular-data input ("a default input of `df` referring to a
pandas dataframe will be used if not provided"). -/
def pandasDefaultInputs : List (String × String) :=
  [("df", "a pandas dataframe")]

/-- The default allow-list of the tabular specialization
("default imports: pandas, numpy, math, datetime, matplotlib, seaborn"). -/
def pandasDefaultImports : List String :=
  ["pandas", "numpy", "math", "datetime", "matplotlib", "seaborn"]

/-- Modelled from the spec: `code_genie/client.py` (absent from the
repository snapshot) declares the request model `GetPandasExecutableRequest`;
per spec §4.1 it "defaults its input mapping to a single entry describing a
tabular-data input when none is supplied, and defaults its allow-list to a
fixed set of data-analysis-oriented modules when none is supplied", and Task
Descriptor construction "Fails with `InvalidArgument` if instructions is
empty". -/
def GetPandasExecutableRequest.build (instructions : List String)
    (inputs : Option (List (String × String))) (columns : Option (List String))
    (allowed_imports : Option (List String)) :
    Except PyError GetPandasExecutableRequest :=
  if instructionsEmpty instructions then
    .error (.InvalidArgument "instructions is empty")
  else
    .ok ⟨instructions, inputs.getD pandasDefaultInputs, columns,
      some (allowed_imports.getD pandasDefaultImports)⟩

/-- The external client (`code_genie/client.py`): one operation per wrapper
kind, each taking the request payload and returning the Generation Result —
the generated source text and the function name — or raising. -/
structure Client (F : Type) where
  get_generic : GetExecutableRequest → Except PyError (String × String)
  get_pandas : GetPandasExecutableRequest → Except PyError (String × String)

/-- `_extract_executable` generalized over the dict `exec` starts from:
run the text in the given namespace and look the function name up in the
result; an absent name is the name-lookup fault of `mem[fn_name]`, the
spec's `ActivationError`. -/
def extractFrom {F : Type} (es : ExecSem F) (init : Namespace F)
    (code fn_name : String) : Except PyError (Value F) := do
  let mem ← es code init
  match lookupNS mem fn_name with
  | some v => .ok v
  | none => .error (.ActivationError fn_name)

/-- `GenieBase._extract_executable(code, fn_name)`: create a fresh empty
dict, `exec` the code into it, and return the value bound to `fn_name`. -/
def extract_executable {F : Type} (es : ExecSem F) (code fn_name : String) :
    Except PyError (Value F) :=
  extractFrom es (freshNamespace F) code fn_name

/-- The state of a successfully constructed generic wrapper (`Genie`):
the attributes `GenieBase.__init__` assigns. -/
structure GenieState (F : Type) where
  inputs : List (String × String)
  instructions : List String
  allowed_imports : Option (List String)
  code : String
  fn_name : String
  executor : Value F

/-- The state of a successfully constructed tabular wrapper (`PandasGenie`):
the `GenieBase` attributes plus the stored column hints. -/
structure PandasGenieState (F : Type) where
  columns : Option (List String)
  inputs : Option (List (String × String))
  instructions : List String
  allowed_imports : Option (List String)
  code : String
  fn_name : String
  executor : Value F

/-- The request `Genie._get_code` sends: the normalized instructions, the
inputs mapping and the allow-list packed into a `GetExecutableRequest`. -/
def Genie.request (instructions : Instructions)
    (inputs : List (String × String)) (allowed_imports : Option (List String)) :
    Except PyError GetExecutableRequest :=
  GetExecutableRequest.build (normalizeInstructions instructions) inputs
    allowed_imports

/-- `Genie(...)` — `GenieBase.__init__` specialized by `Genie._get_code`:
normalize the instructions, build the request, send it through the client,
activate the returned code and store everything on the instance. -/
def Genie.init {F : Type} (es : ExecSem F) (client : Client F)
    (instructions : Instructions) (inputs : List (String × String))
    (allowed_imports : Option (List String)) :
    Except PyError (GenieState F) := do
  let instrs := normalizeInstructions instructions
  let req ← Genie.request instructions inputs allowed_imports
  let res ← client.get_generic req
  let ex ← extract_executable es res.1 res.2
  .ok ⟨inputs, instrs, allowed_imports, res.1, res.2, ex⟩

/-- The request `PandasGenie._get_code` sends: the normalized instructions,
the optional inputs, columns and allow-list packed into a
`GetPandasExecutableRequest` (whose model applies the tabular defaults). -/
def PandasGenie.request (instructions : Instructions)
    (columns : Option (List String)) (inputs : Option (List (String × String)))
    (allowed_imports : Option (List String)) :
    Except PyError GetPandasExecutableRequest :=
  GetPandasExecutableRequest.build (normalizeInstructions instructions) inputs
    columns allowed_imports

/-- `PandasGenie(...)` — stores the column hints, then runs
`GenieBase.__init__` with `PandasGenie._get_code`. -/
def PandasGenie.init {F : Type} (es : ExecSem F) (client : Client F)
    (instructions : Instructions) (columns : Option (List String))
    (inputs : Option (List (String × String)))
    (allowed_imports : Option (List String)) :
    Except PyError (PandasGenieState F) := do
  let instrs := normalizeInstructions instructions
  let req ← PandasGenie.request instructions columns inputs allowed_imports
  let res ← client.get_pandas req
  let ex ← extract_executable es res.1 res.2
  .ok ⟨columns, inputs, instrs, allowed_imports, res.1, res.2, ex⟩

/-- `GenieBase.__call__(*args, **kwargs)`: forward the arguments to the
stored executor and return its result unchanged. -/
def GenieState.call {F : Type} (apply : ApplySem F) (s : GenieState F)
    (a : Args F) : Except PyError (Value F) :=
  pycall apply s.executor a

/-- `GenieBase.__call__` on the tabular wrapper (inherited unchanged). -/
def PandasGenieState.call {F : Type} (apply : ApplySem F)
    (s : PandasGenieState F) (a : Args F) : Except PyError (Value F) :=
  pycall apply s.executor a

/-- The `code` property: returns the stored `_code` attribute. -/
def GenieState.codeProp {F : Type} (s : GenieState F) : String :=
  s.code

/-- The `code` property on the tabular wrapper (inherited unchanged). -/
def PandasGenieState.codeProp {F : Type} (s : PandasGenieState F) : String :=
  s.code

/-! ### Concrete instances used to exercise the definitions

A tiny concrete Python runtime (`F := Nat`, implementations indexed by
numbers) and a few stub clients, mirroring the stub generation services the
spec's testable properties talk about. -/

/-- A concrete call protocol: implementation `n` returns a tagged object. -/
def toyApply : ApplySem Nat :=
  fun n _ => .ok (.obj (toString n))

/-- A concrete `exec` semantics for three known source texts: `"deff"`
binds `f` to a callable, `"gval"` binds `g` to a non-callable object,
`"noop"` binds nothing; anything else fails to define. -/
def toyExec : ExecSem Nat :=
  fun code ns =>
    if code = "deff" then .ok (("f", Value.callable 7) :: ns)
    else if code = "gval" then .ok (("g", Value.obj "int") :: ns)
    else if code = "noop" then .ok ns
    else .error (.Other "does not define")

/-- A stub client that returns valid code defining the requested name. -/
def clientOk : Client Nat :=
  ⟨fun _ => .ok ("deff", "f"), fun _ => .ok ("deff", "f")⟩

/-- A stub client whose service call fails. -/
def clientErr : Client Nat :=
  ⟨fun _ => .error (.GenerationFailed "e"), fun _ => .error (.GenerationFailed "e")⟩

/-- A stub client returning code that does not define the requested name. -/
def clientNoop : Client Nat :=
  ⟨fun _ => .ok ("noop", "f"), fun _ => .ok ("noop", "f")⟩

/-- A stub client returning code that binds the requested name to a
non-callable object. -/
def clientObj : Client Nat :=
  ⟨fun _ => .ok ("gval", "g"), fun _ => .ok ("gval", "g")⟩

/-- An arbitrary concrete argument tuple. -/
def toyArgs : Args Nat :=
  ⟨[Value.obj "1"], []⟩

/-! ### Reduction helpers for the `Except` monad -/

@[simp]
theorem except_ok_bind {ε α β : Type} (a : α) (f : α → Except ε β) :
    ((Except.ok a : Except ε α) >>= f) = f a :=
  rfl

@[simp]
theorem except_error_bind {ε α β : Type} (e : ε) (f : α → Except ε β) :
    ((Except.error e : Except ε α) >>= f) = Except.error e :=
  rfl

/-! ### Claim theorems -/

/-- C1: for every construction of a wrapper (generic or tabular) in which
the external generation service call raises or returns an error — surfaced
as `GenerationFailed`, the failure class of the client boundary — the
construction fails with that `GenerationFailed` error: `GenieBase.__init__`
performs no recovery around `_get_code`. -/
theorem genie_c1_generation_failure_propagates :
    (∀ (F : Type) (es : ExecSem F) (client : Client F) (i : Instructions)
        (inp : List (String × String)) (allow : Option (List String))
        (req : GetExecutableRequest) (m : String),
      Genie.request i inp allow = .ok req →
      client.get_generic req = .error (.GenerationFailed m) →
      Genie.init es client i inp allow = .error (.GenerationFailed m)) ∧
    (∀ (F : Type) (es : ExecSem F) (client : Client F) (i : Instructions)
        (cols : Option (List String)) (pinp : Option (List (String × String)))
        (allow : Option (List String))
        (req : GetPandasExecutableRequest) (m : String),
      PandasGenie.request i cols pinp allow = .ok req →
      client.get_pandas req = .error (.GenerationFailed m) →
      PandasGenie.init es client i cols pinp allow = .error (.GenerationFailed m)) := by
  constructor
  · intro F es client i inp allow req m hreq hc
    simp [Genie.init, hreq, hc]
  · intro F es client i cols pinp allow req m hreq hc
    simp [PandasGenie.init, hreq, hc]

/-- Witness for C1 at a concrete stub client whose service call fails. -/
theorem genie_c1_witness :
    Genie.init toyExec clientErr (Sum.inl "x") [] none
      = .error (.GenerationFailed "e") ∧
    PandasGenie.init toyExec clientErr (Sum.inl "x") none none none
      = .error (.GenerationFailed "e") :=
  ⟨genie_c1_generation_failure_propagates.1 Nat toyExec clientErr (Sum.inl "x")
      [] none ⟨["x"], [], none⟩ "e" rfl rfl,
    genie_c1_generation_failure_propagates.2 Nat toyExec clientErr (Sum.inl "x")
      none none none
      ⟨["x"], pandasDefaultInputs, none, some pandasDefaultImports⟩ "e" rfl rfl⟩

/-- C3: for every construction in which the generation service returns code
text that does not define a binding for the returned function name —
`exec` succeeds but the name is absent from the namespace — construction
fails with `ActivationError` (the `mem[fn_name]` lookup fault). -/
theorem genie_c3_missing_name_activation_error :
    (∀ (F : Type) (es : ExecSem F) (client : Client F) (i : Instructions)
        (inp : List (String × String)) (allow : Option (List String))
        (req : GetExecutableRequest) (code fn : String) (mem : Namespace F),
      Genie.request i inp allow = .ok req →
      client.get_generic req = .ok (code, fn) →
      es code (freshNamespace F) = .ok mem →
      lookupNS mem fn = none →
      Genie.init es client i inp allow = .error (.ActivationError fn)) ∧
    (∀ (F : Type) (es : ExecSem F) (client : Client F) (i : Instructions)
        (cols : Option (List String)) (pinp : Option (List (String × String)))
        (allow : Option (List String)) (req : GetPandasExecutableRequest)
        (code fn : String) (mem : Namespace F),
      PandasGenie.request i cols pinp allow = .ok req →
      client.get_pandas req = .ok (code, fn) →
      es code (freshNamespace F) = .ok mem →
      lookupNS mem fn = none →
      PandasGenie.init es client i cols pinp allow = .error (.ActivationError fn)) := by
  constructor
  · intro F es client i inp allow req code fn mem hreq hc hes hlook
    simp [Genie.init, extract_executable, extractFrom, hreq, hc, hes, hlook]
  · intro F es client i cols pinp allow req code fn mem hreq hc hes hlook
    simp [PandasGenie.init, extract_executable, extractFrom, hreq, hc, hes, hlook]

/-- Witness for C3 at a concrete stub client returning code that binds
nothing. -/
theorem genie_c3_witness :
    Genie.init toyExec clientNoop (Sum.inl "x") [] none
      = .error (.ActivationError "f") ∧
    PandasGenie.init toyExec clientNoop (Sum.inl "x") none none none
      = .error (.ActivationError "f") :=
  ⟨genie_c3_missing_name_activation_error.1 Nat toyExec clientNoop (Sum.inl "x")
      [] none ⟨["x"], [], none⟩ "noop" "f" [] rfl rfl rfl rfl,
    genie_c3_missing_name_activation_error.2 Nat toyExec clientNoop (Sum.inl "x")
      none none none
      ⟨["x"], pandasDefaultInputs, none, some pandasDefaultImports⟩
      "noop" "f" [] rfl rfl rfl rfl⟩

/-- C4: for every construction (generic or tabular) whose instructions are
empty — the empty string, which normalizes to `[""]`, or the empty sequence
— Task Descriptor construction fails with `InvalidArgument`, before any
service call or activation happens. -/
theorem genie_c4_empty_instructions_invalid_argument :
    ∀ (F : Type) (es : ExecSem F) (client : Client F)
      (inp : List (String × String)) (cols : Option (List String))
      (pinp : Option (List (String × String))) (allow : Option (List String)),
    Genie.init es client (Sum.inl "") inp allow
      = .error (.InvalidArgument "instructions is empty") ∧
    Genie.init es client (Sum.inr []) inp allow
      = .error (.InvalidArgument "instructions is empty") ∧
    PandasGenie.init es client (Sum.inl "") cols pinp allow
      = .error (.InvalidArgument "instructions is empty") ∧
    PandasGenie.init es client (Sum.inr []) cols pinp allow
      = .error (.InvalidArgument "instructions is empty") := by
  intro F es client inp cols pinp allow
  refine ⟨rfl, rfl, rfl, rfl⟩

/-- Witness for C4 at a concrete client and runtime. -/
theorem genie_c4_witness :
    Genie.init toyExec clientOk (Sum.inl "") [] none
      = .error (.InvalidArgument "instructions is empty") ∧
    Genie.init toyExec clientOk (Sum.inr []) [] none
      = .error (.InvalidArgument "instructions is empty") ∧
    PandasGenie.init toyExec clientOk (Sum.inl "") none none none
      = .error (.InvalidArgument "instructions is empty") ∧
    PandasGenie.init toyExec clientOk (Sum.inr []) none none none
      = .error (.InvalidArgument "instructions is empty") :=
  genie_c4_empty_instructions_invalid_argument Nat toyExec clientOk [] none none none

/-- C2: for every construction of the tabular specialization with no inputs
mapping supplied, the Task Descriptor sent to the generation service has an
inputs mapping containing exactly one entry, the tabular-data (`df`) input. -/
theorem genie_c2_pandas_default_inputs :
    ∀ (i : Instructions) (cols : Option (List String))
      (allow : Option (List String)) (req : GetPandasExecutableRequest),
    PandasGenie.request i cols none allow = .ok req →
    req.inputs = pandasDefaultInputs ∧ req.inputs.length = 1 := by
  intro i cols allow req hreq
  unfold PandasGenie.request GetPandasExecutableRequest.build at hreq
  split at hreq
  · exact absurd hreq (by simp)
  · rw [Except.ok.injEq] at hreq
    subst hreq
    simp [pandasDefaultInputs]

/-- Witness for C2 at concrete construction parameters. -/
theorem genie_c2_witness :
    (GetPandasExecutableRequest.mk ["x"] pandasDefaultInputs none
        (some pandasDefaultImports)).inputs = pandasDefaultInputs ∧
    (GetPandasExecutableRequest.mk ["x"] pandasDefaultInputs none
        (some pandasDefaultImports)).inputs.length = 1 :=
  genie_c2_pandas_default_inputs (Sum.inl "x") none none
    ⟨["x"], pandasDefaultInputs, none, some pandasDefaultImports⟩ rfl

/-- C5: for every construction of the tabular specialization with no
allowed-imports list supplied, the Task Descriptor sent to the generation
service has its allow-list set to the fixed data-analysis set
(pandas, numpy, math, datetime, matplotlib, seaborn), not absent. -/
theorem genie_c5_pandas_default_imports :
    ∀ (i : Instructions) (cols : Option (List String))
      (pinp : Option (List (String × String))) (req : GetPandasExecutableRequest),
    PandasGenie.request i cols pinp none = .ok req →
    req.allowed_imports = some pandasDefaultImports ∧
      req.allowed_imports ≠ none ∧
      pandasDefaultImports
        = ["pandas", "numpy", "math", "datetime", "matplotlib", "seaborn"] := by
  intro i cols pinp req hreq
  unfold PandasGenie.request GetPandasExecutableRequest.build at hreq
  split at hreq
  · exact absurd hreq (by simp)
  · rw [Except.ok.injEq] at hreq
    subst hreq
    simp [pandasDefaultImports]

/-- Witness for C5 at concrete construction parameters. -/
theorem genie_c5_witness :
    (GetPandasExecutableRequest.mk ["x"] pandasDefaultInputs none
        (some pandasDefaultImports)).allowed_imports = some pandasDefaultImports ∧
    (GetPandasExecutableRequest.mk ["x"] pandasDefaultInputs none
        (some pandasDefaultImports)).allowed_imports ≠ none ∧
    pandasDefaultImports
      = ["pandas", "numpy", "math", "datetime", "matplotlib", "seaborn"] :=
  genie_c5_pandas_default_imports (Sum.inl "x") none none
    ⟨["x"], pandasDefaultInputs, none, some pandasDefaultImports⟩ rfl

/-- C8: a single instruction string is normalized to the one-element
sequence containing it, a sequence of strings is kept as supplied, and the
normalized sequence is what both request builders place in the Task
Descriptor sent to the generation service. -/
theorem genie_c8_instructions_normalized :
    (∀ s : String, normalizeInstructions (Sum.inl s) = [s]) ∧
    (∀ l : List String, normalizeInstructions (Sum.inr l) = l) ∧
    (∀ (i : Instructions) (inp : List (String × String))
        (allow : Option (List String)) (req : GetExecutableRequest),
      Genie.request i inp allow = .ok req →
      req.instructions = normalizeInstructions i) ∧
    (∀ (i : Instructions) (cols : Option (List String))
        (pinp : Option (List (String × String))) (allow : Option (List String))
        (req : GetPandasExecutableRequest),
      PandasGenie.request i cols pinp allow = .ok req →
      req.instructions = normalizeInstructions i) := by
  refine ⟨fun s => rfl, fun l => rfl, ?_, ?_⟩
  · intro i inp allow req hreq
    unfold Genie.request GetExecutableRequest.build at hreq
    split at hreq
    · exact absurd hreq (by simp)
    · rw [Except.ok.injEq] at hreq
      subst hreq
      rfl
  · intro i cols pinp allow req hreq
    unfold PandasGenie.request GetPandasExecutableRequest.build at hreq
    split at hreq
    · exact absurd hreq (by simp)
    · rw [Except.ok.injEq] at hreq
      subst hreq
      rfl

/-- Witness for C8: the normalized instructions of a concrete single-string
and a concrete sequence construction land in the descriptors unchanged. -/
theorem genie_c8_witness :
    normalizeInstructions (Sum.inl "x") = ["x"] ∧
    normalizeInstructions (Sum.inr ["a", "b"]) = ["a", "b"] ∧
    (GetExecutableRequest.mk ["a", "b"] [] none).instructions
      = normalizeInstructions (Sum.inr ["a", "b"]) ∧
    (GetPandasExecutableRequest.mk ["x"] pandasDefaultInputs none
        (some pandasDefaultImports)).instructions
      = normalizeInstructions (Sum.inl "x") :=
  ⟨genie_c8_instructions_normalized.1 "x",
    genie_c8_instructions_normalized.2.1 ["a", "b"],
    genie_c8_instructions_normalized.2.2.1 (Sum.inr ["a", "b"]) [] none
      ⟨["a", "b"], [], none⟩ rfl,
    genie_c8_instructions_normalized.2.2.2 (Sum.inl "x") none none none
      ⟨["x"], pandasDefaultInputs, none, some pandasDefaultImports⟩ rfl⟩

/-- C6: for every successfully constructed wrapper (generic or tabular) and
every argument tuple, invoking the wrapper returns exactly the value the
activated function returns for those same arguments: `__call__` forwards
`*args, **kwargs` to the stored executor and returns its result unchanged. -/
theorem genie_c6_call_passthrough :
    (∀ (F : Type) (es : ExecSem F) (apply : ApplySem F) (client : Client F)
        (i : Instructions) (inp : List (String × String))
        (allow : Option (List String)) (req : GetExecutableRequest)
        (code fn : String) (mem : Namespace F) (f : F) (a : Args F),
      Genie.request i inp allow = .ok req →
      client.get_generic req = .ok (code, fn) →
      es code (freshNamespace F) = .ok mem →
      lookupNS mem fn = some (.callable f) →
      Genie.init es client i inp allow
          = .ok ⟨inp, normalizeInstructions i, allow, code, fn, .callable f⟩ ∧
        GenieState.call apply
          ⟨inp, normalizeInstructions i, allow, code, fn, .callable f⟩ a
          = apply f a) ∧
    (∀ (F : Type) (es : ExecSem F) (apply : ApplySem F) (client : Client F)
        (i : Instructions) (cols : Option (List String))
        (pinp : Option (List (String × String))) (allow : Option (List String))
        (req : GetPandasExecutableRequest) (code fn : String)
        (mem : Namespace F) (f : F) (a : Args F),
      PandasGenie.request i cols pinp allow = .ok req →
      client.get_pandas req = .ok (code, fn) →
      es code (freshNamespace F) = .ok mem →
      lookupNS mem fn = some (.callable f) →
      PandasGenie.init es client i cols pinp allow
          = .ok ⟨cols, pinp, normalizeInstructions i, allow, code, fn, .callable f⟩ ∧
        PandasGenieState.call apply
          ⟨cols, pinp, normalizeInstructions i, allow, code, fn, .callable f⟩ a
          = apply f a) := by
  constructor
  · intro F es apply client i inp allow req code fn mem f a hreq hc hes hlook
    constructor
    · simp [Genie.init, extract_executable, extractFrom, hreq, hc, hes, hlook]
    · rfl
  · intro F es apply client i cols pinp allow req code fn mem f a hreq hc hes hlook
    constructor
    · simp [PandasGenie.init, extract_executable, extractFrom, hreq, hc, hes, hlook]
    · rfl

/-- Witness for C6 at a stub client returning code that binds `f` to
implementation `7` of the toy runtime. -/
theorem genie_c6_witness :
    (Genie.init toyExec clientOk (Sum.inl "x") [] none
        = .ok ⟨[], ["x"], none, "deff", "f", .callable 7⟩ ∧
      GenieState.call toyApply ⟨[], ["x"], none, "deff", "f", .callable 7⟩ toyArgs
        = toyApply 7 toyArgs) ∧
    (PandasGenie.init toyExec clientOk (Sum.inl "x") none none none
        = .ok ⟨none, none, ["x"], none, "deff", "f", .callable 7⟩ ∧
      PandasGenieState.call toyApply
        ⟨none, none, ["x"], none, "deff", "f", .callable 7⟩ toyArgs
        = toyApply 7 toyArgs) :=
  ⟨genie_c6_call_passthrough.1 Nat toyExec toyApply clientOk (Sum.inl "x") [] none
      ⟨["x"], [], none⟩ "deff" "f" [("f", Value.callable 7)] 7 toyArgs
      rfl rfl rfl rfl,
    genie_c6_call_passthrough.2 Nat toyExec toyApply clientOk (Sum.inl "x")
      none none none ⟨["x"], pandasDefaultInputs, none, some pandasDefaultImports⟩
      "deff" "f" [("f", Value.callable 7)] 7 toyArgs rfl rfl rfl rfl⟩

/-- C7: for every successfully constructed wrapper (generic or tabular), the
`code` property returns exactly the code string received from the generation
service, unmodified. -/
theorem genie_c7_code_accessor_verbatim :
    (∀ (F : Type) (es : ExecSem F) (client : Client F) (i : Instructions)
        (inp : List (String × String)) (allow : Option (List String))
        (req : GetExecutableRequest) (code fn : String) (mem : Namespace F)
        (v : Value F),
      Genie.request i inp allow = .ok req →
      client.get_generic req = .ok (code, fn) →
      es code (freshNamespace F) = .ok mem →
      lookupNS mem fn = some v →
      Genie.init es client i inp allow
          = .ok ⟨inp, normalizeInstructions i, allow, code, fn, v⟩ ∧
        GenieState.codeProp ⟨inp, normalizeInstructions i, allow, code, fn, v⟩
          = code) ∧
    (∀ (F : Type) (es : ExecSem F) (client : Client F) (i : Instructions)
        (cols : Option (List String)) (pinp : Option (List (String × String)))
        (allow : Option (List String)) (req : GetPandasExecutableRequest)
        (code fn : String) (mem : Namespace F) (v : Value F),
      PandasGenie.request i cols pinp allow = .ok req →
      client.get_pandas req = .ok (code, fn) →
      es code (freshNamespace F) = .ok mem →
      lookupNS mem fn = some v →
      PandasGenie.init es client i cols pinp allow
          = .ok ⟨cols, pinp, normalizeInstructions i, allow, code, fn, v⟩ ∧
        PandasGenieState.codeProp
          ⟨cols, pinp, normalizeInstructions i, allow, code, fn, v⟩ = code) := by
  constructor
  · intro F es client i inp allow req code fn mem v hreq hc hes hlook
    constructor
    · simp [Genie.init, extract_executable, extractFrom, hreq, hc, hes, hlook]
    · rfl
  · intro F es client i cols pinp allow req code fn mem v hreq hc hes hlook
    constructor
    · simp [PandasGenie.init, extract_executable, extractFrom, hreq, hc, hes, hlook]
    · rfl

/-- Witness for C7 at a stub client returning the code text `"deff"`. -/
theorem genie_c7_witness :
    (Genie.init toyExec clientOk (Sum.inl "x") [] none
        = .ok ⟨[], ["x"], none, "deff", "f", .callable 7⟩ ∧
      GenieState.codeProp ⟨[], ["x"], none, "deff", "f", Value.callable 7⟩
        = "deff") ∧
    (PandasGenie.init toyExec clientOk (Sum.inl "x") none none none
        = .ok ⟨none, none, ["x"], none, "deff", "f", .callable 7⟩ ∧
      PandasGenieState.codeProp
        ⟨none, none, ["x"], none, "deff", "f", Value.callable 7⟩ = "deff") :=
  ⟨genie_c7_code_accessor_verbatim.1 Nat toyExec clientOk (Sum.inl "x") [] none
      ⟨["x"], [], none⟩ "deff" "f" [("f", Value.callable 7)] (Value.callable 7)
      rfl rfl rfl rfl,
    genie_c7_code_accessor_verbatim.2 Nat toyExec clientOk (Sum.inl "x")
      none none none ⟨["x"], pandasDefaultInputs, none, some pandasDefaultImports⟩
      "deff" "f" [("f", Value.callable 7)] (Value.callable 7) rfl rfl rfl rfl⟩

/-- C9: every activation runs the generated code in `freshNamespace`, a
newly created namespace that is initially empty — so even when one
activation's `exec` has bound a name, the namespace any other activation
starts from still has no binding for it. -/
theorem genie_c9_fresh_empty_namespace :
    (∀ (F : Type) (x : String), lookupNS (freshNamespace F) x = none) ∧
    (∀ (F : Type) (es : ExecSem F) (code fn : String),
      extract_executable es code fn
        = extractFrom es (freshNamespace F) code fn) ∧
    (∀ (F : Type) (es : ExecSem F) (c1 : String) (m1 : Namespace F)
        (x : String) (v : Value F),
      es c1 (freshNamespace F) = .ok m1 →
      lookupNS m1 x = some v →
      ∀ (c2 fn2 : String),
        extract_executable es c2 fn2
            = extractFrom es (freshNamespace F) c2 fn2 ∧
          lookupNS (freshNamespace F) x = none) := by
  refine ⟨fun F x => rfl, fun F es code fn => rfl, ?_⟩
  intro F es c1 m1 x v h1 h2 c2 fn2
  exact ⟨rfl, rfl⟩

/-- Witness for C9: activating `"gval"` binds `g`, yet the namespace the
activation of `"deff"` starts from has no binding for `g`. -/
theorem genie_c9_witness :
    extract_executable toyExec "deff" "f"
        = extractFrom toyExec (freshNamespace Nat) "deff" "f" ∧
      lookupNS (freshNamespace Nat) "g" = none :=
  genie_c9_fresh_empty_namespace.2.2 Nat toyExec "gval"
    [("g", Value.obj "int")] "g" (Value.obj "int") rfl rfl "deff" "f"

/-- C10: when the generated code binds the returned function name to a
non-callable value, activation succeeds and stores that value — no
activation failure is raised — and the fault (`TypeError`) only occurs
later, when the wrapper is invoked. -/
theorem genie_c10_noncallable_binding_accepted :
    ∀ (F : Type) (es : ExecSem F) (apply : ApplySem F) (client : Client F)
      (i : Instructions) (inp : List (String × String))
      (allow : Option (List String)) (req : GetExecutableRequest)
      (code fn tag : String) (mem : Namespace F) (a : Args F),
    Genie.request i inp allow = .ok req →
    client.get_generic req = .ok (code, fn) →
    es code (freshNamespace F) = .ok mem →
    lookupNS mem fn = some (.obj tag) →
    Genie.init es client i inp allow
        = .ok ⟨inp, normalizeInstructions i, allow, code, fn, .obj tag⟩ ∧
      GenieState.call apply
        ⟨inp, normalizeInstructions i, allow, code, fn, .obj tag⟩ a
        = .error (.TypeError tag) := by
  intro F es apply client i inp allow req code fn tag mem a hreq hc hes hlook
  constructor
  · simp [Genie.init, extract_executable, extractFrom, hreq, hc, hes, hlook]
  · rfl

/-- Witness for C10 at a stub client whose code binds `g` to a non-callable
object: construction succeeds, invocation raises `TypeError`. -/
theorem genie_c10_witness :
    Genie.init toyExec clientObj (Sum.inl "x") [] none
        = .ok ⟨[], ["x"], none, "gval", "g", .obj "int"⟩ ∧
      GenieState.call toyApply ⟨[], ["x"], none, "gval", "g", Value.obj "int"⟩
        toyArgs = .error (.TypeError "int") :=
  genie_c10_noncallable_binding_accepted Nat toyExec toyApply clientObj
    (Sum.inl "x") [] none ⟨["x"], [], none⟩ "gval" "g" "int"
    [("g", Value.obj "int")] toyArgs rfl rfl rfl rfl
